import Mathlib

/-!
Shallow embedding of the options-order parser and structure pricer
(`src/options_pricer/models.py`, `parser.py`, `structure_pricer.py`).

Python floats are modelled as rationals, Python ints as integers,
`None`-able values as `Option`, and raising functions as `Except String`.
`date.today()` is modelled as an explicit `(year, month)` parameter.
-/

namespace OptionsPricer

/-- models.py `OptionType`. -/
inductive OptionType where
  | CALL
  | PUT
deriving DecidableEq

/-- models.py `Side`. -/
inductive Side where
  | BUY
  | SELL
deriving DecidableEq

/-- models.py `QuoteSide`. -/
inductive QuoteSide where
  | BID
  | OFFER
deriving DecidableEq

/-- A calendar date as produced by `parse_expiry` (year, month, day). -/
structure Expiry where
  year : ℕ
  month : ℕ
  day : ℕ
deriving DecidableEq

/-- models.py `OptionLeg`.  The `expiry` is `Option` because the Python
parser can pass `None` (`current_expiry`) through untyped dict specs. -/
structure OptionLeg where
  underlying : String
  expiry : Option Expiry
  strike : ℚ
  option_type : OptionType
  side : Side
  quantity : ℤ := 1
  ratio : ℤ := 1
deriving DecidableEq

/-- models.py `OptionStructure` (payoff helpers omitted; not needed). -/
structure OptionStructure where
  name : String
  legs : List OptionLeg := []
  description : String := ""
deriving DecidableEq

/-- models.py `ParsedOrder`.  The Python field `structure` is a Lean
keyword, hence `structure'`. -/
structure ParsedOrder where
  underlying : String
  structure' : OptionStructure
  stock_ref : ℚ
  delta : ℚ
  price : ℚ
  quote_side : QuoteSide
  quantity : ℤ
  raw_text : String := ""
deriving DecidableEq

/-- models.py `LegMarketData` (fields only). -/
structure LegMarketData where
  bid : ℚ := 0
  bid_size : ℤ := 0
  offer : ℚ := 0
  offer_size : ℤ := 0
deriving DecidableEq

/-- Python `a or b` on numbers: `b` if `a` is zero (falsy), else `a`. -/
def pyOrQ (a b : ℚ) : ℚ := if a = 0 then b else a

/-- models.py `LegMarketData.mid`: average of bid/offer if both positive,
else `self.bid or self.offer`. -/
def LegMarketData.mid (m : LegMarketData) : ℚ :=
  if 0 < m.bid ∧ 0 < m.offer then (m.bid + m.offer) / 2 else pyOrQ m.bid m.offer

/-- models.py `StructureMarketData`. -/
structure StructureMarketData where
  leg_data : List (OptionLeg × LegMarketData) := []
  stock_price : ℚ := 0
  stock_ref : ℚ := 0
  delta : ℚ := 0
  structure_bid : ℚ := 0
  structure_offer : ℚ := 0
  structure_bid_size : ℤ := 0
  structure_offer_size : ℤ := 0
deriving DecidableEq

/-- models.py `StructureMarketData.structure_mid`. -/
def StructureMarketData.structure_mid (s : StructureMarketData) : ℚ :=
  (s.structure_bid + s.structure_offer) / 2

/-! ## structure_pricer.py -/

/-- Python `int(...)` on a rational: truncation toward zero. -/
def pyInt (q : ℚ) : ℤ := if 0 ≤ q then ⌊q⌋ else ⌈q⌉

/-- structure_pricer.py `_calc_structure_size` line 93:
`min(leg.quantity for leg in legs) if legs else 1`. -/
def baseQty (legs : List OptionLeg) : ℤ :=
  match legs with
  | [] => 1
  | l :: ls => ls.foldl (fun acc x => min acc x.quantity) l.quantity

/-- structure_pricer.py `_calc_structure_size` lines 96-101: the screen
size constraining one leg on one side. -/
def sizeConstraint (forBid : Bool) (leg : OptionLeg) (mkt : LegMarketData) : ℤ :=
  if forBid then
    if leg.side = Side.SELL then mkt.bid_size else mkt.offer_size
  else
    if leg.side = Side.BUY then mkt.offer_size else mkt.bid_size

/-- structure_pricer.py `_calc_structure_size`.  The running
`min_structures` (initially `float("inf")`) is modelled as an `Option`:
`none` is infinity. -/
def calcStructureSize (legs : List OptionLeg) (leg_market : List LegMarketData)
    (forBid : Bool) : ℤ :=
  let base := baseQty legs
  let minStructures : Option ℚ :=
    (legs.zip leg_market).foldl
      (fun (acc : Option ℚ) (p : OptionLeg × LegMarketData) =>
        if 0 < p.1.quantity then
          let possible : ℚ := (sizeConstraint forBid p.1 p.2 : ℚ) / ((p.1.quantity : ℚ) / (base : ℚ))
          match acc with
          | none => some possible
          | some m => some (min m possible)
        else acc)
      none
  match minStructures with
  | none => 0
  | some m => pyInt m

/-- structure_pricer.py lines 46-58: one leg's contribution to the running
`(struct_bid, struct_offer)` pair. -/
def accumulateLeg (acc : ℚ × ℚ) (p : OptionLeg × LegMarketData) : ℚ × ℚ :=
  if p.1.side = Side.BUY then
    (acc.1 - p.2.bid * p.1.quantity, acc.2 - p.2.offer * p.1.quantity)
  else
    (acc.1 + p.2.offer * p.1.quantity, acc.2 + p.2.bid * p.1.quantity)

/-- The `(struct_bid, struct_offer)` totals before normalization. -/
def rawTotals (pairs : List (OptionLeg × LegMarketData)) : ℚ × ℚ :=
  pairs.foldl accumulateLeg (0, 0)

/-- structure_pricer.py line 36-38 error message. -/
def mismatchMsg (nlegs nmkt : ℕ) : String :=
  "Leg count mismatch: " ++ toString nlegs ++ " legs but " ++ toString nmkt ++ " market entries"

/-- structure_pricer.py `price_structure_from_market`. -/
def price_structure_from_market (order : ParsedOrder)
    (leg_market : List LegMarketData) (stock_price : ℚ) :
    Except String StructureMarketData :=
  let legs := order.structure'.legs
  if legs.length ≠ leg_market.length then
    Except.error (mismatchMsg legs.length leg_market.length)
  else
    let raw := rawTotals (legs.zip leg_market)
    let sb := if raw.2 < raw.1 then raw.2 else raw.1
    let so := if raw.2 < raw.1 then raw.1 else raw.2
    Except.ok
      { leg_data := legs.zip leg_market
        stock_price := stock_price
        stock_ref := order.stock_ref
        delta := order.delta
        structure_bid := sb
        structure_offer := so
        structure_bid_size := calcStructureSize legs leg_market true
        structure_offer_size := calcStructureSize legs leg_market false }

/-- C3: for every ParsedOrder and per-leg market-data list of matching
length, the returned StructureMarketData satisfies
`structure_bid ≤ structure_offer` (the post-accumulation swap normalizes
the pair). -/
theorem structure_bid_le_structure_offer (order : ParsedOrder)
    (leg_market : List LegMarketData) (stock_price : ℚ)
    (hlen : order.structure'.legs.length = leg_market.length) :
    ∃ r, price_structure_from_market order leg_market stock_price = Except.ok r ∧
      r.structure_bid ≤ r.structure_offer := by
  unfold price_structure_from_market
  rw [if_neg (by simp [hlen])]
  refine ⟨_, rfl, ?_⟩
  dsimp only
  by_cases h : (rawTotals (order.structure'.legs.zip leg_market)).2 <
      (rawTotals (order.structure'.legs.zip leg_market)).1
  · rw [if_pos h, if_pos h]
    exact le_of_lt h
  · rw [if_neg h, if_neg h]
    exact le_of_not_lt h

/-- Witness for C3 at a concrete one-leg order. -/
theorem structure_bid_le_structure_offer_witness :
    ∃ r, price_structure_from_market
        { underlying := "TEST"
          structure' := { name := "single"
                          legs := [{ underlying := "TEST", expiry := some ⟨2026, 6, 16⟩,
                                     strike := 300, option_type := OptionType.CALL,
                                     side := Side.BUY, quantity := 1, ratio := 1 }] }
          stock_ref := 250, delta := 30, price := 0,
          quote_side := QuoteSide.BID, quantity := 1 }
        [{ bid := 5, bid_size := 100, offer := 11/2, offer_size := 200 }] 250 = Except.ok r ∧
      r.structure_bid ≤ r.structure_offer :=
  structure_bid_le_structure_offer _ _ _ rfl

/-- C1: the spec says that for the bid side (selling the structure) a SELL
leg is constrained by its offer_size and a BUY leg by its bid_size.  The
code's `for_bid` branch instead uses bid_size for SELL legs and offer_size
for BUY legs — exactly the same selection as the offer side — so a single
BUY leg with bid_size 100 and offer_size 200 gets bid-side size 200
(the claim requires 100), and the bid-side size always equals the
offer-side size. -/
theorem calc_size_bid_side_same_as_offer_side :
    calcStructureSize
        [{ underlying := "TEST", expiry := some ⟨2026, 6, 16⟩, strike := 300,
           option_type := OptionType.CALL, side := Side.BUY, quantity := 1, ratio := 1 }]
        [{ bid := 5, bid_size := 100, offer := 11/2, offer_size := 200 }] true = 200 ∧
    calcStructureSize
        [{ underlying := "TEST", expiry := some ⟨2026, 6, 16⟩, strike := 300,
           option_type := OptionType.CALL, side := Side.BUY, quantity := 1, ratio := 1 }]
        [{ bid := 5, bid_size := 100, offer := 11/2, offer_size := 200 }] false = 200 := by
  constructor <;> simp [calcStructureSize, baseQty, sizeConstraint, pyInt]

/-- C8: when the leg count and the market-data count differ the pricer
returns the "Leg count mismatch" error naming both counts (it never
truncates to the shorter list); when they are equal it never raises this
error. -/
theorem leg_count_mismatch_error (order : ParsedOrder)
    (leg_market : List LegMarketData) (stock_price : ℚ) :
    (order.structure'.legs.length ≠ leg_market.length →
      price_structure_from_market order leg_market stock_price =
        Except.error (mismatchMsg order.structure'.legs.length leg_market.length)) ∧
    (order.structure'.legs.length = leg_market.length →
      ∃ r, price_structure_from_market order leg_market stock_price = Except.ok r) := by
  constructor
  · intro h
    unfold price_structure_from_market
    rw [if_pos h]
  · intro h
    unfold price_structure_from_market
    rw [if_neg (by simp [h])]
    exact ⟨_, rfl⟩

/-- Witness for C8: one leg with zero market entries errs with the message
naming 1 and 0; one leg with one market entry succeeds. -/
theorem leg_count_mismatch_error_witness :
    (price_structure_from_market
        { underlying := "TEST"
          structure' := { name := "single"
                          legs := [{ underlying := "TEST", expiry := some ⟨2026, 6, 16⟩,
                                     strike := 300, option_type := OptionType.CALL,
                                     side := Side.BUY, quantity := 1, ratio := 1 }] }
          stock_ref := 0, delta := 0, price := 0,
          quote_side := QuoteSide.BID, quantity := 1 }
        [] 0 = Except.error (mismatchMsg 1 0)) ∧
    (∃ r, price_structure_from_market
        { underlying := "TEST"
          structure' := { name := "single"
                          legs := [{ underlying := "TEST", expiry := some ⟨2026, 6, 16⟩,
                                     strike := 300, option_type := OptionType.CALL,
                                     side := Side.BUY, quantity := 1, ratio := 1 }] }
          stock_ref := 0, delta := 0, price := 0,
          quote_side := QuoteSide.BID, quantity := 1 }
        [{ bid := 5, bid_size := 100, offer := 11/2, offer_size := 200 }] 0 = Except.ok r) :=
  ⟨(leg_count_mismatch_error _ [] 0).1 (by decide),
   (leg_count_mismatch_error _ [_] 0).2 (by decide)⟩

/-! ## parser.py: leg building -/

/-- Python `a or b` on `Option OptionType` (enum members are truthy). -/
def pyOrOptType (a b : Option OptionType) : Option OptionType :=
  match a with
  | some t => some t
  | none => b

/-- Python `a or b` on `Option String` with a string default
(nonempty strings are truthy). -/
def pyOrStr (a : Option String) (b : String) : String :=
  match a with
  | none => b
  | some s => if s = "" then b else s

/-- One entry of parser.py `leg_specs`: a dict with keys
expiry (a date or None), strike, type (optional). -/
structure LegSpec where
  expiry : Option Expiry
  strike : ℚ
  type : Option OptionType
deriving DecidableEq

/-- parser.py `_resolve_type`. -/
def resolve_type (spec : LegSpec) (fallback : Option OptionType) :
    Except String OptionType :=
  match pyOrOptType spec.type fallback with
  | some t => Except.ok t
  | none => Except.error ("Cannot determine option type for strike " ++ toString spec.strike)

/-- Python `sorted(specs, key=lambda s: s["strike"])` (stable). -/
def sortByStrike (specs : List LegSpec) : List LegSpec :=
  specs.mergeSort (fun a b => decide (a.strike ≤ b.strike))

/-- parser.py `_build_single`. -/
def build_single (tk : String) (specs : List LegSpec) (q : ℤ) :
    Except String (List OptionLeg) :=
  match specs with
  | [] => Except.error "IndexError: list index out of range"
  | spec :: _ =>
    match resolve_type spec none with
    | Except.error e => Except.error e
    | Except.ok t =>
      Except.ok
        [{ underlying := tk, expiry := spec.expiry, strike := spec.strike,
           option_type := t, side := Side.BUY, quantity := q }]

/-- parser.py `_build_spread`. -/
def build_spread (tk : String) (specs : List LegSpec) (spread_type : String)
    (q r1 r2 : ℤ) : Except String (List OptionLeg) :=
  match specs with
  | s1 :: s2 :: _ =>
    let optTypeE : Except String OptionType :=
      if spread_type = "put_spread" then Except.ok OptionType.PUT
      else if spread_type = "call_spread" then Except.ok OptionType.CALL
      else resolve_type s1 s2.type
    match optTypeE with
    | Except.error e => Except.error e
    | Except.ok opt_type =>
      let high_strike := max s1.strike s2.strike
      let low_strike := min s1.strike s2.strike
      let high_spec := if s2.strike ≤ s1.strike then s1 else s2
      let low_spec := if s2.strike ≤ s1.strike then s2 else s1
      if opt_type = OptionType.PUT then
        Except.ok
          [{ underlying := tk, expiry := high_spec.expiry, strike := high_strike,
             option_type := OptionType.PUT, side := Side.SELL, quantity := q * r1 },
           { underlying := tk, expiry := low_spec.expiry, strike := low_strike,
             option_type := OptionType.PUT, side := Side.BUY, quantity := q * r2 }]
      else
        Except.ok
          [{ underlying := tk, expiry := low_spec.expiry, strike := low_strike,
             option_type := OptionType.CALL, side := Side.BUY, quantity := q * r1 },
           { underlying := tk, expiry := high_spec.expiry, strike := high_strike,
             option_type := OptionType.CALL, side := Side.SELL, quantity := q * r2 }]
  | _ => Except.error "Spread requires at least 2 strikes"

/-- parser.py `_build_risk_reversal`. -/
def build_risk_reversal (tk : String) (specs : List LegSpec) (q : ℤ)
    (modifier : Option String) : Except String (List OptionLeg) :=
  match specs with
  | s1 :: s2 :: _ =>
    let pc : LegSpec × LegSpec :=
      if s1.type.isSome ∧ s2.type.isSome then
        (if s1.type = some OptionType.PUT then s1 else s2,
         if s1.type = some OptionType.PUT then s2 else s1)
      else
        if s1.strike ≤ s2.strike then (s1, s2) else (s2, s1)
    if modifier = some "putover" then
      Except.ok
        [{ underlying := tk, expiry := pc.1.expiry, strike := pc.1.strike,
           option_type := OptionType.PUT, side := Side.BUY, quantity := q },
         { underlying := tk, expiry := pc.2.expiry, strike := pc.2.strike,
           option_type := OptionType.CALL, side := Side.SELL, quantity := q }]
    else
      Except.ok
        [{ underlying := tk, expiry := pc.1.expiry, strike := pc.1.strike,
           option_type := OptionType.PUT, side := Side.SELL, quantity := q },
         { underlying := tk, expiry := pc.2.expiry, strike := pc.2.strike,
           option_type := OptionType.CALL, side := Side.BUY, quantity := q }]
  | _ => Except.error "Risk reversal requires 2 strikes"

/-- parser.py `_build_straddle`. -/
def build_straddle (tk : String) (specs : List LegSpec) (q : ℤ) :
    Except String (List OptionLeg) :=
  match specs with
  | [] => Except.error "Straddle requires at least 1 strike"
  | spec :: _ =>
    Except.ok
      [{ underlying := tk, expiry := spec.expiry, strike := spec.strike,
         option_type := OptionType.CALL, side := Side.BUY, quantity := q },
       { underlying := tk, expiry := spec.expiry, strike := spec.strike,
         option_type := OptionType.PUT, side := Side.BUY, quantity := q }]

/-- parser.py `_build_strangle`. -/
def build_strangle (tk : String) (specs : List LegSpec) (q : ℤ) :
    Except String (List OptionLeg) :=
  match sortByStrike specs with
  | a :: b :: _ =>
    Except.ok
      [{ underlying := tk, expiry := a.expiry, strike := a.strike,
         option_type := OptionType.PUT, side := Side.BUY, quantity := q },
       { underlying := tk, expiry := b.expiry, strike := b.strike,
         option_type := OptionType.CALL, side := Side.BUY, quantity := q }]
  | _ => Except.error "Strangle requires 2 strikes"

/-- parser.py `_build_butterfly`. -/
def build_butterfly (tk : String) (specs : List LegSpec) (q : ℤ)
    (default_opt_type : Option OptionType) : Except String (List OptionLeg) :=
  match sortByStrike specs with
  | a :: b :: c :: _ =>
    let t := (pyOrOptType a.type (pyOrOptType default_opt_type (some OptionType.CALL))).getD OptionType.CALL
    Except.ok
      [{ underlying := tk, expiry := a.expiry, strike := a.strike,
         option_type := t, side := Side.BUY, quantity := q },
       { underlying := tk, expiry := b.expiry, strike := b.strike,
         option_type := t, side := Side.SELL, quantity := q * 2 },
       { underlying := tk, expiry := c.expiry, strike := c.strike,
         option_type := t, side := Side.BUY, quantity := q }]
  | _ => Except.error "Butterfly requires 3 strikes"

/-- parser.py `_build_collar`. -/
def build_collar (tk : String) (specs : List LegSpec) (q : ℤ) :
    Except String (List OptionLeg) :=
  match sortByStrike specs with
  | a :: b :: _ =>
    Except.ok
      [{ underlying := tk, expiry := a.expiry, strike := a.strike,
         option_type := OptionType.PUT, side := Side.BUY, quantity := q },
       { underlying := tk, expiry := b.expiry, strike := b.strike,
         option_type := OptionType.CALL, side := Side.SELL, quantity := q }]
  | _ => Except.error "Collar requires 2 strikes"

/-- parser.py `_build_legs`. -/
def build_legs (tk : String) (leg_specs : List LegSpec)
    (default_opt_type : Option OptionType) (structure_type : Option String)
    (ratio_tuple : Option (ℤ × ℤ)) (modifier : Option String) (q : ℤ) :
    Except String (List OptionLeg) :=
  if leg_specs = [] then Except.error "No strikes/expiries found in order"
  else
    let specs := leg_specs.map (fun s => { s with type := pyOrOptType s.type default_opt_type })
    let r1 := (ratio_tuple.getD (1, 1)).1
    let r2 := (ratio_tuple.getD (1, 1)).2
    let st := pyOrStr structure_type "single"
    if st = "single" then build_single tk specs q
    else if st = "put_spread" ∨ st = "call_spread" ∨ st = "spread" then
      build_spread tk specs st q r1 r2
    else if st = "risk_reversal" then build_risk_reversal tk specs q modifier
    else if st = "straddle" then build_straddle tk specs q
    else if st = "strangle" then build_strangle tk specs q
    else if st = "butterfly" then build_butterfly tk specs q default_opt_type
    else if st = "collar" then build_collar tk specs q
    else Except.error ("Unknown structure type: " ++ st)

lemma build_single_quantities (tk : String) (specs : List LegSpec) (q : ℤ)
    (L : List OptionLeg) (h : build_single tk specs q = Except.ok L) :
    ∀ leg ∈ L, leg.ratio = 1 ∧ leg.quantity = q := by
  unfold build_single at h
  repeat' split at h
  all_goals
    first
      | exact Except.noConfusion h
      | (simp at h; subst h; intro leg hm; fin_cases hm <;>
          exact ⟨rfl, by simp⟩)

lemma build_straddle_quantities (tk : String) (specs : List LegSpec) (q : ℤ)
    (L : List OptionLeg) (h : build_straddle tk specs q = Except.ok L) :
    ∀ leg ∈ L, leg.ratio = 1 ∧ leg.quantity = q := by
  unfold build_straddle at h
  repeat' split at h
  all_goals
    first
      | exact Except.noConfusion h
      | (simp at h; subst h; intro leg hm; fin_cases hm <;>
          exact ⟨rfl, by simp⟩)

lemma build_risk_reversal_quantities (tk : String) (specs : List LegSpec) (q : ℤ)
    (modifier : Option String) (L : List OptionLeg)
    (h : build_risk_reversal tk specs q modifier = Except.ok L) :
    ∀ leg ∈ L, leg.ratio = 1 ∧ leg.quantity = q := by
  unfold build_risk_reversal at h
  repeat' split at h
  all_goals
    first
      | exact Except.noConfusion h
      | (simp at h; subst h; intro leg hm; fin_cases hm <;>
          exact ⟨rfl, by simp⟩)

lemma build_strangle_quantities (tk : String) (specs : List LegSpec) (q : ℤ)
    (L : List OptionLeg) (h : build_strangle tk specs q = Except.ok L) :
    ∀ leg ∈ L, leg.ratio = 1 ∧ leg.quantity = q := by
  unfold build_strangle at h
  repeat' split at h
  all_goals
    first
      | exact Except.noConfusion h
      | (simp at h; subst h; intro leg hm; fin_cases hm <;>
          exact ⟨rfl, by simp⟩)

lemma build_collar_quantities (tk : String) (specs : List LegSpec) (q : ℤ)
    (L : List OptionLeg) (h : build_collar tk specs q = Except.ok L) :
    ∀ leg ∈ L, leg.ratio = 1 ∧ leg.quantity = q := by
  unfold build_collar at h
  repeat' split at h
  all_goals
    first
      | exact Except.noConfusion h
      | (simp at h; subst h; intro leg hm; fin_cases hm <;>
          exact ⟨rfl, by simp⟩)

lemma build_butterfly_quantities (tk : String) (specs : List LegSpec) (q : ℤ)
    (d : Option OptionType) (L : List OptionLeg)
    (h : build_butterfly tk specs q d = Except.ok L) :
    ∀ leg ∈ L, leg.ratio = 1 ∧ (leg.quantity = q ∨ leg.quantity = q * 2) := by
  unfold build_butterfly at h
  repeat' split at h
  all_goals
    first
      | exact Except.noConfusion h
      | (simp at h; subst h; intro leg hm; fin_cases hm <;>
          exact ⟨rfl, by simp⟩)

lemma build_spread_quantities (tk : String) (specs : List LegSpec)
    (spread_type : String) (q r1 r2 : ℤ) (L : List OptionLeg)
    (h : build_spread tk specs spread_type q r1 r2 = Except.ok L) :
    ∀ leg ∈ L, leg.ratio = 1 ∧ (leg.quantity = q * r1 ∨ leg.quantity = q * r2) := by
  unfold build_spread at h
  split at h
  next s1 s2 tail =>
    rcases hr : (if spread_type = "put_spread" then Except.ok OptionType.PUT
        else if spread_type = "call_spread" then Except.ok OptionType.CALL
        else resolve_type s1 s2.type) with e | t
    · rw [hr] at h
      simp at h
    · rw [hr] at h
      simp only [] at h
      by_cases ht : t = OptionType.PUT <;>
        [rw [if_pos ht] at h; rw [if_neg ht] at h] <;>
        (simp at h; subst h; intro leg hm; fin_cases hm <;>
          exact ⟨rfl, by simp⟩)
  next => exact Except.noConfusion h

/-- C5 (amended): every OptionLeg produced by any structure builder leaves
the `ratio` field at its default 1, and its quantity is the order quantity
times a structure-determined weight: r1 or r2 for spread legs, 2 for the
butterfly body, 1 otherwise.  Hence `quantity = ratio × order_quantity`
holds exactly where that weight is 1, and fails for spread legs under a
non-unit ratio and for the butterfly body. -/
theorem built_legs_ratio_one_and_weighted_quantity
    (tk : String) (leg_specs : List LegSpec) (d : Option OptionType)
    (st : Option String) (rt : Option (ℤ × ℤ)) (md : Option String) (q : ℤ)
    (L : List OptionLeg) (h : build_legs tk leg_specs d st rt md q = Except.ok L) :
    ∀ leg ∈ L, leg.ratio = 1 ∧
      (leg.quantity = q ∨ leg.quantity = q * 2 ∨
        leg.quantity = q * (rt.getD (1, 1)).1 ∨ leg.quantity = q * (rt.getD (1, 1)).2) := by
  unfold build_legs at h
  split at h
  · simp at h
  · dsimp only at h
    split at h
    · intro leg hm
      rcases build_single_quantities _ _ _ _ h leg hm with ⟨h1, h2⟩
      exact ⟨h1, Or.inl h2⟩
    · split at h
      · intro leg hm
        rcases build_spread_quantities _ _ _ _ _ _ _ h leg hm with ⟨h1, h2⟩
        rcases h2 with h2 | h2
        · exact ⟨h1, Or.inr (Or.inr (Or.inl h2))⟩
        · exact ⟨h1, Or.inr (Or.inr (Or.inr h2))⟩
      · split at h
        · intro leg hm
          rcases build_risk_reversal_quantities _ _ _ _ _ h leg hm with ⟨h1, h2⟩
          exact ⟨h1, Or.inl h2⟩
        · split at h
          · intro leg hm
            rcases build_straddle_quantities _ _ _ _ h leg hm with ⟨h1, h2⟩
            exact ⟨h1, Or.inl h2⟩
          · split at h
            · intro leg hm
              rcases build_strangle_quantities _ _ _ _ h leg hm with ⟨h1, h2⟩
              exact ⟨h1, Or.inl h2⟩
            · split at h
              · intro leg hm
                rcases build_butterfly_quantities _ _ _ _ _ h leg hm with ⟨h1, h2⟩
                rcases h2 with h2 | h2
                · exact ⟨h1, Or.inl h2⟩
                · exact ⟨h1, Or.inr (Or.inl h2)⟩
              · split at h
                · intro leg hm
                  rcases build_collar_quantities _ _ _ _ h leg hm with ⟨h1, h2⟩
                  exact ⟨h1, Or.inl h2⟩
                · simp at h

/-- Counterexample for C5 as stated: a 1x2 put spread built with order
quantity 1 produces a BUY leg with quantity 2 while its `ratio` field is
still 1, so `quantity = ratio × order_quantity` fails. -/
theorem spread_ratio_field_counterexample :
    ∃ L leg, build_legs "AAPL"
        [{ expiry := some ⟨2026, 6, 16⟩, strike := 240, type := some OptionType.PUT },
         { expiry := some ⟨2026, 6, 16⟩, strike := 220, type := some OptionType.PUT }]
        none (some "put_spread") (some (1, 2)) none 1 = Except.ok L ∧
      leg ∈ L ∧ leg.quantity ≠ leg.ratio * 1 := by
  refine ⟨[{ underlying := "AAPL", expiry := some ⟨2026, 6, 16⟩, strike := 240,
             option_type := OptionType.PUT, side := Side.SELL, quantity := 1 },
           { underlying := "AAPL", expiry := some ⟨2026, 6, 16⟩, strike := 220,
             option_type := OptionType.PUT, side := Side.BUY, quantity := 2 }],
          { underlying := "AAPL", expiry := some ⟨2026, 6, 16⟩, strike := 220,
            option_type := OptionType.PUT, side := Side.BUY, quantity := 2 },
          ?_, ?_, ?_⟩
  · simp [build_legs, build_spread, pyOrStr, pyOrOptType]
    norm_num
  · simp
  · decide

/-- Witness for C5 (amended): the BUY leg of the concrete 1x2 put spread
has ratio 1 and quantity equal to order quantity times the r2 weight. -/
theorem built_legs_ratio_one_and_weighted_quantity_witness :
    ({ underlying := "AAPL", expiry := some ⟨2026, 6, 16⟩, strike := 220,
       option_type := OptionType.PUT, side := Side.BUY, quantity := 2 } : OptionLeg).ratio = 1 ∧
    (({ underlying := "AAPL", expiry := some ⟨2026, 6, 16⟩, strike := 220,
        option_type := OptionType.PUT, side := Side.BUY, quantity := 2 } : OptionLeg).quantity = 1 ∨
     ({ underlying := "AAPL", expiry := some ⟨2026, 6, 16⟩, strike := 220,
        option_type := OptionType.PUT, side := Side.BUY, quantity := 2 } : OptionLeg).quantity = 1 * 2 ∨
     ({ underlying := "AAPL", expiry := some ⟨2026, 6, 16⟩, strike := 220,
        option_type := OptionType.PUT, side := Side.BUY, quantity := 2 } : OptionLeg).quantity =
       1 * ((some ((1 : ℤ), (2 : ℤ))).getD (1, 1)).1 ∨
     ({ underlying := "AAPL", expiry := some ⟨2026, 6, 16⟩, strike := 220,
        option_type := OptionType.PUT, side := Side.BUY, quantity := 2 } : OptionLeg).quantity =
       1 * ((some ((1 : ℤ), (2 : ℤ))).getD (1, 1)).2) :=
  built_legs_ratio_one_and_weighted_quantity "AAPL"
    [{ expiry := some ⟨2026, 6, 16⟩, strike := 240, type := some OptionType.PUT },
     { expiry := some ⟨2026, 6, 16⟩, strike := 220, type := some OptionType.PUT }]
    none (some "put_spread") (some (1, 2)) none 1
    [{ underlying := "AAPL", expiry := some ⟨2026, 6, 16⟩, strike := 240,
       option_type := OptionType.PUT, side := Side.SELL, quantity := 1 },
     { underlying := "AAPL", expiry := some ⟨2026, 6, 16⟩, strike := 220,
       option_type := OptionType.PUT, side := Side.BUY, quantity := 2 }]
    (by
      simp [build_legs, build_spread, pyOrStr, pyOrOptType]
      norm_num)
    { underlying := "AAPL", expiry := some ⟨2026, 6, 16⟩, strike := 220,
      option_type := OptionType.PUT, side := Side.BUY, quantity := 2 }
    (by simp)

lemma swap_sum (a b : ℚ) :
    ((if b < a then b else a) + (if b < a then a else b)) = a + b := by
  by_cases hab : b < a <;> simp [hab, add_comm]

/-- C4 (amended): a straddle (BUY call + BUY put at the same strike and
expiry, both with the order quantity q) priced from per-leg market data
with positive bids and offers yields `structure_mid` equal to the
NEGATIVE of q times the sum of the two legs' individual mids (both legs
are bought, so the structure is a net debit and the code's sign
convention makes the mid negative; its absolute value at q = 1 is the sum
of the leg mids). -/
theorem straddle_mid_eq_neg_sum_of_leg_mids
    (tk : String) (spec : LegSpec) (specs : List LegSpec) (q : ℤ)
    (order : ParsedOrder) (m1 m2 : LegMarketData) (sp : ℚ) (L : List OptionLeg)
    (hL : build_straddle tk (spec :: specs) q = Except.ok L)
    (hlegs : order.structure'.legs = L)
    (h1b : 0 < m1.bid) (h1o : 0 < m1.offer) (h2b : 0 < m2.bid) (h2o : 0 < m2.offer) :
    ∃ r, price_structure_from_market order [m1, m2] sp = Except.ok r ∧
      r.structure_mid = -(q : ℚ) * (m1.mid + m2.mid) := by
  simp only [build_straddle, Except.ok.injEq] at hL
  subst hL
  unfold price_structure_from_market
  rw [hlegs]
  rw [if_neg (by simp)]
  refine ⟨_, rfl, ?_⟩
  simp only [StructureMarketData.structure_mid]
  rw [swap_sum]
  have hraw : rawTotals
      (([{ underlying := tk, expiry := spec.expiry, strike := spec.strike,
           option_type := OptionType.CALL, side := Side.BUY, quantity := q, ratio := 1 },
         { underlying := tk, expiry := spec.expiry, strike := spec.strike,
           option_type := OptionType.PUT, side := Side.BUY, quantity := q, ratio := 1 }] :
        List OptionLeg).zip [m1, m2]) =
      (0 - m1.bid * (q : ℚ) - m2.bid * (q : ℚ), 0 - m1.offer * (q : ℚ) - m2.offer * (q : ℚ)) := by
    simp [rawTotals, accumulateLeg]
  rw [hraw]
  rw [LegMarketData.mid, if_pos (And.intro h1b h1o)]
  rw [LegMarketData.mid, if_pos (And.intro h2b h2o)]
  ring

/-- Counterexample for C4 as stated: the straddle from the repo's own test
(BUY 250 call quoted 8/8.5, BUY 250 put quoted 7/7.5, quantity 1) prices
to structure_mid = -15.5, which is NOT equal to the sum of leg mids
8.25 + 7.25 = 15.5 — the code preserves the net-debit sign and only the
absolute value matches. -/
theorem straddle_mid_sign_counterexample :
    (price_structure_from_market
        { underlying := "TEST"
          structure' := { name := "straddle"
                          legs := [{ underlying := "TEST", expiry := some ⟨2026, 6, 16⟩,
                                     strike := 250, option_type := OptionType.CALL,
                                     side := Side.BUY, quantity := 1 },
                                   { underlying := "TEST", expiry := some ⟨2026, 6, 16⟩,
                                     strike := 250, option_type := OptionType.PUT,
                                     side := Side.BUY, quantity := 1 }] }
          stock_ref := 250, delta := 30, price := 0,
          quote_side := QuoteSide.BID, quantity := 1 }
        [{ bid := 8, bid_size := 50, offer := 17/2, offer_size := 50 },
         { bid := 7, bid_size := 60, offer := 15/2, offer_size := 60 }] 250).map
      StructureMarketData.structure_mid = Except.ok (-(31/2) : ℚ) ∧
    LegMarketData.mid { bid := 8, bid_size := 50, offer := 17/2, offer_size := 50 } +
      LegMarketData.mid { bid := 7, bid_size := 60, offer := 15/2, offer_size := 60 } = 31/2 ∧
    (-(31/2) : ℚ) ≠ 31/2 := by
  refine ⟨?_, ?_, by norm_num⟩
  · simp [price_structure_from_market, rawTotals, accumulateLeg,
      StructureMarketData.structure_mid, Except.map, calcStructureSize, baseQty,
      sizeConstraint, pyInt]
    norm_num
  · simp [LegMarketData.mid, pyOrQ]
    norm_num

/-- Witness for C4 (amended) at the concrete test straddle. -/
theorem straddle_mid_eq_neg_sum_of_leg_mids_witness :
    ∃ r, price_structure_from_market
        { underlying := "TEST"
          structure' := { name := "straddle"
                          legs := [{ underlying := "TEST", expiry := some ⟨2026, 6, 16⟩,
                                     strike := 250, option_type := OptionType.CALL,
                                     side := Side.BUY, quantity := 1 },
                                   { underlying := "TEST", expiry := some ⟨2026, 6, 16⟩,
                                     strike := 250, option_type := OptionType.PUT,
                                     side := Side.BUY, quantity := 1 }] }
          stock_ref := 250, delta := 30, price := 0,
          quote_side := QuoteSide.BID, quantity := 1 }
        [{ bid := 8, bid_size := 50, offer := 17/2, offer_size := 50 },
         { bid := 7, bid_size := 60, offer := 15/2, offer_size := 60 }] 250 = Except.ok r ∧
      r.structure_mid = -((1 : ℤ) : ℚ) *
        (LegMarketData.mid { bid := 8, bid_size := 50, offer := 17/2, offer_size := 50 } +
         LegMarketData.mid { bid := 7, bid_size := 60, offer := 15/2, offer_size := 60 }) :=
  straddle_mid_eq_neg_sum_of_leg_mids "TEST"
    { expiry := some ⟨2026, 6, 16⟩, strike := 250, type := none } [] 1 _ _ _ 250 _
    rfl rfl (by norm_num) (by norm_num) (by norm_num) (by norm_num)

/-! ## parser.py: delta assembly (parse_order lines 105-137) -/

/-- Python truthiness of an optional float. -/
def pyTruthyOptQ (x : Option ℚ) : Bool :=
  match x with
  | none => false
  | some v => if v = 0 then false else true

/-- parser.py `parse_order` restricted to the delta field: the LIVE
zeroing (lines 106-108), the delta-direction sign application
(lines 110-127) and the final `delta or 0.0` (line 132). -/
def finalDelta (is_live : Bool) (delta : Option ℚ) (delta_direction : Option String)
    (structure_type : Option String) : ℚ :=
  let d1 : Option ℚ := if is_live then some 0 else delta
  let d2 : Option ℚ :=
    if pyTruthyOptQ d1 ∧ delta_direction.isSome then
      match d1, delta_direction with
      | some v, some s =>
        if s = "put" then some (-|v|)
        else if s = "call" then some |v|
        else if s = "1x" then
          if structure_type = some "call_spread" ∨ structure_type = some "put_spread" then
            some |v|
          else some v
        else if s = "2x" then
          if structure_type = some "call_spread" then some (-|v|)
          else if structure_type = some "put_spread" then some (-|v|)
          else some v
        else some v
      | _, _ => d1
    else d1
  match d2 with
  | none => 0
  | some v => v

/-- Counterexample for C6 as stated: with the LIVE flag present, an
extracted delta of 30 and the qualifier "put" yield a final delta of 0
(LIVE zeroes delta before the sign rules run), which is not negative. -/
theorem delta_direction_live_counterexample :
    finalDelta true (some 30) (some "put") none = 0 ∧
    ¬ finalDelta true (some 30) (some "put") none < 0 := by
  have h : finalDelta true (some 30) (some "put") none = 0 := by
    simp [finalDelta, pyTruthyOptQ]
  exact ⟨h, by rw [h]; exact lt_irrefl 0⟩

/-- C6 (amended): when the LIVE flag is absent and the extracted delta is
nonzero, the delta-direction qualifier fixes the final delta sign:
"put" makes it negative, "call" positive, "1x" on a put_spread or
call_spread positive, "2x" on either spread type negative, and with no
qualifier the extracted value is kept unchanged. -/
theorem delta_direction_sign_rules (d : ℚ) (st : Option String) (hd : d ≠ 0) :
    (finalDelta false (some d) (some "put") st < 0) ∧
    (0 < finalDelta false (some d) (some "call") st) ∧
    ((st = some "put_spread" ∨ st = some "call_spread") →
      0 < finalDelta false (some d) (some "1x") st) ∧
    ((st = some "put_spread" ∨ st = some "call_spread") →
      finalDelta false (some d) (some "2x") st < 0) ∧
    (finalDelta false (some d) none st = d) := by
  have habs : 0 < |d| := abs_pos.mpr hd
  refine ⟨?_, ?_, ?_, ?_, ?_⟩
  · simp only [finalDelta, pyTruthyOptQ]
    simp [hd]
  · simp only [finalDelta, pyTruthyOptQ]
    simp [hd]
  · rintro (rfl | rfl) <;>
      (simp only [finalDelta, pyTruthyOptQ]; simp [hd])
  · rintro (rfl | rfl) <;>
      (simp only [finalDelta, pyTruthyOptQ]; simp [hd])
  · simp [finalDelta, pyTruthyOptQ]

/-- Witness for C6 (amended) at delta 30 on a put spread. -/
theorem delta_direction_sign_rules_witness :
    finalDelta false (some 30) (some "put") (some "put_spread") < 0 ∧
    0 < finalDelta false (some 30) (some "call") (some "put_spread") ∧
    0 < finalDelta false (some 30) (some "1x") (some "put_spread") ∧
    finalDelta false (some 30) (some "2x") (some "put_spread") < 0 ∧
    finalDelta false (some 30) none (some "put_spread") = 30 := by
  obtain ⟨h1, h2, h3, h4, h5⟩ :=
    delta_direction_sign_rules 30 (some "put_spread") (by norm_num)
  exact ⟨h1, h2, h3 (Or.inl rfl), h4 (Or.inl rfl), h5⟩

/-! ## parser.py: expiry resolution -/

/-- parser.py `_MONTHS` (keys as character lists so that lookups are
kernel-computable). -/
def MONTHS : List (List Char × ℕ) :=
  [("jan".toList, 1), ("feb".toList, 2), ("mar".toList, 3), ("apr".toList, 4),
   ("may".toList, 5), ("jun".toList, 6), ("jul".toList, 7), ("aug".toList, 8),
   ("sep".toList, 9), ("oct".toList, 10), ("nov".toList, 11), ("dec".toList, 12)]

/-- parser.py `parse_expiry`.  `date.today()` is modelled by the explicit
`today_year`/`today_month` parameters; `expiry_str[:3].lower()` is
`(take 3).map Char.toLower` on the character list. -/
def parse_expiry (expiry_str : List Char) (year_str : Option ℕ)
    (today_year today_month : ℕ) : Except String Expiry :=
  match MONTHS.lookup ((expiry_str.take 3).map Char.toLower) with
  | none => Except.error ("Unknown month: " ++ String.mk expiry_str)
  | some month =>
    match year_str with
    | some y => Except.ok { year := 2000 + y, month := month, day := 16 }
    | none =>
      Except.ok { year := if month ≤ today_month then today_year + 1 else today_year,
                  month := month, day := 16 }

/-- C7: for every known month token, expiry resolution returns day 16;
with a 2-digit year suffix the year is 2000 plus the suffix; without a
suffix the year is the current year when the month is strictly greater
than the current month, else the next year. -/
theorem parse_expiry_resolution (tok : List Char) (mo ty tm : ℕ)
    (hm : MONTHS.lookup ((tok.take 3).map Char.toLower) = some mo) :
    (∀ yy, parse_expiry tok (some yy) ty tm =
      Except.ok { year := 2000 + yy, month := mo, day := 16 }) ∧
    (parse_expiry tok none ty tm =
      Except.ok { year := if tm < mo then ty else ty + 1, month := mo, day := 16 }) := by
  constructor
  · intro yy
    unfold parse_expiry
    rw [hm]
  · unfold parse_expiry
    rw [hm]
    have hyr : (if mo ≤ tm then ty + 1 else ty) = (if tm < mo then ty else ty + 1) := by
      by_cases h : mo ≤ tm
      · rw [if_pos h, if_neg (not_lt.mpr h)]
      · rw [if_neg h, if_pos (lt_of_not_le h)]
    rw [← hyr]

/-- Witness for C7 on "jun" with today = May 2025. -/
theorem parse_expiry_resolution_witness :
    (∀ yy, parse_expiry "jun".toList (some yy) 2025 5 =
      Except.ok { year := 2000 + yy, month := 6, day := 16 }) ∧
    (parse_expiry "jun".toList none 2025 5 =
      Except.ok { year := if 5 < 6 then 2025 else 2025 + 1, month := 6, day := 16 }) :=
  parse_expiry_resolution "jun".toList 6 2025 5 (by decide)

/-! ## parser.py: price extraction cascade and order assembly -/

/-- parser.py `_extract_price_and_side`: the six regex alternatives tried
in order (price+\"bid\", price+\"offer\"/\"ask\", b-suffix, o-suffix, @-price,
\"at\"-price); each argument is that pattern's match result. -/
def extract_price_and_side (m_bid_word m_offer_word m_b_suffix m_o_suffix
    m_at m_at_word : Option ℚ) : Option ℚ × Option QuoteSide :=
  match m_bid_word with
  | some p => (some p, some QuoteSide.BID)
  | none =>
    match m_offer_word with
    | some p => (some p, some QuoteSide.OFFER)
    | none =>
      match m_b_suffix with
      | some p => (some p, some QuoteSide.BID)
      | none =>
        match m_o_suffix with
        | some p => (some p, some QuoteSide.OFFER)
        | none =>
          match m_at with
          | some p => (some p, some QuoteSide.OFFER)
          | none =>
            match m_at_word with
            | some p => (some p, some QuoteSide.OFFER)
            | none => (none, none)

/-- Python `x or d` on an optional float. -/
def pyOrOptQ (x : Option ℚ) (d : ℚ) : ℚ :=
  match x with
  | none => d
  | some v => if v = 0 then d else v

/-- Python `x or d` on an optional int. -/
def pyOrOptInt (x : Option ℤ) (d : ℤ) : ℤ :=
  match x with
  | none => d
  | some v => if v = 0 then d else v

/-- parser.py `parse_order` lines 128-137: the final ParsedOrder
construction from the extracted fields. -/
def assemble_order (ticker : String) (structure' : OptionStructure)
    (stock_ref : Option ℚ) (delta : ℚ) (price : Option ℚ)
    (quote_side : Option QuoteSide) (quantity : Option ℤ) (raw : String) :
    ParsedOrder :=
  { underlying := ticker.toUpper
    structure' := structure'
    stock_ref := pyOrOptQ stock_ref 0
    delta := pyOrQ delta 0
    price := pyOrOptQ price 0
    quote_side := quote_side.getD QuoteSide.BID
    quantity := pyOrOptInt quantity 0
    raw_text := raw }

/-- C9: when none of the six price patterns match, the extraction returns
(None, None) and the assembled ParsedOrder carries the sentinel price 0.0
with quote_side BID. -/
theorem absent_price_defaults_bid (ticker : String) (structure' : OptionStructure)
    (stock_ref : Option ℚ) (delta : ℚ) (quantity : Option ℤ) (raw : String) :
    extract_price_and_side none none none none none none = (none, none) ∧
    (assemble_order ticker structure' stock_ref delta
        (extract_price_and_side none none none none none none).1
        (extract_price_and_side none none none none none none).2 quantity raw).price = 0 ∧
    (assemble_order ticker structure' stock_ref delta
        (extract_price_and_side none none none none none none).1
        (extract_price_and_side none none none none none none).2 quantity raw).quote_side =
      QuoteSide.BID :=
  ⟨rfl, rfl, rfl⟩

/-! ## parser.py: ticker stage (parse_order lines 54-72, _parse_core 327-331) -/

/-- The whitespace class of Python `str.strip()` / `str.split()` and
regex `\s` (space, tab, newline, carriage return, vertical tab,
form feed). -/
def pyIsSpace (c : Char) : Bool :=
  c == ' ' || c == '\t' || c == '\n' || c == '\r' || c == '\x0b' || c == '\x0c'

/-- Python `str.strip()` on a character list. -/
def stripChars (l : List Char) : List Char :=
  ((l.dropWhile pyIsSpace).reverse.dropWhile pyIsSpace).reverse

/-- Helper for `pySplit`: Python `str.split()` with no argument
(split on whitespace runs, dropping empty tokens). -/
def splitAux : List Char → List Char → List (List Char)
  | [], acc => if acc = [] then [] else [acc.reverse]
  | c :: cs, acc =>
    if pyIsSpace c then
      if acc = [] then splitAux cs [] else acc.reverse :: splitAux cs []
    else splitAux cs (c :: acc)

/-- Python `str.split()` with no argument. -/
def pySplit (l : List Char) : List (List Char) := splitAux l []

/-- parse_order lines 54-72 and _parse_core lines 327-331, restricted to
the ticker: strip, empty check, `text.strip().split()`, first token,
ticker check. -/
def parse_ticker_stage (text : List Char) : Except String (List Char) :=
  if stripChars text = [] then Except.error "Empty order string"
  else if (pySplit (stripChars (stripChars text))).headD [] = [] then
    Except.error ("Cannot identify ticker in: " ++ String.mk (stripChars text))
  else Except.ok ((pySplit (stripChars (stripChars text))).headD [])

lemma dropWhile_head_false (p : Char → Bool) :
    ∀ (l : List Char) (c : Char) (cs : List Char), l.dropWhile p = c :: cs → p c = false := by
  intro l
  induction l with
  | nil => intro c cs h; simp [List.dropWhile] at h
  | cons a tl ih =>
    intro c cs h
    by_cases hp : p a
    · rw [List.dropWhile_cons_of_pos hp] at h
      exact ih c cs h
    · rw [List.dropWhile_cons_of_neg hp] at h
      cases h
      simpa using hp

lemma mem_dropWhile_of_false {p : Char → Bool} {c : Char} (hc : p c = false) :
    ∀ l : List Char, c ∈ l → c ∈ l.dropWhile p := by
  intro l
  induction l with
  | nil => intro h; cases h
  | cons a tl ih =>
    intro hmem
    by_cases hp : p a
    · rw [List.dropWhile_cons_of_pos hp]
      rcases List.mem_cons.mp hmem with rfl | hmem2
      · rw [hc] at hp; cases hp
      · exact ih hmem2
    · rwa [List.dropWhile_cons_of_neg hp]

lemma mem_stripChars {c : Char} (hc : pyIsSpace c = false) (l : List Char)
    (hmem : c ∈ l) : c ∈ stripChars l := by
  unfold stripChars
  rw [List.mem_reverse]
  apply mem_dropWhile_of_false hc
  rw [List.mem_reverse]
  exact mem_dropWhile_of_false hc l hmem

lemma stripChars_ex_nonspace (l : List Char) (h : stripChars l ≠ []) :
    ∃ c ∈ stripChars l, pyIsSpace c = false := by
  rcases hE : ((l.dropWhile pyIsSpace).reverse.dropWhile pyIsSpace) with _ | ⟨c, cs⟩
  · exact absurd (by unfold stripChars; rw [hE]; rfl) h
  · refine ⟨c, ?_, dropWhile_head_false pyIsSpace _ c cs hE⟩
    unfold stripChars
    rw [hE, List.mem_reverse]
    exact List.mem_cons_self c cs

lemma splitAux_ne_nil : ∀ (l : List Char) (acc : List Char),
    ((∃ c ∈ l, pyIsSpace c = false) ∨ acc ≠ []) → splitAux l acc ≠ [] := by
  intro l
  induction l with
  | nil =>
    intro acc h
    rcases h with ⟨c, hc, _⟩ | hacc
    · cases hc
    · unfold splitAux
      rw [if_neg hacc]
      simp
  | cons a tl ih =>
    intro acc h
    by_cases hp : pyIsSpace a
    · unfold splitAux
      rw [if_pos hp]
      by_cases hacc : acc = []
      · rw [if_pos hacc]
        apply ih
        left
        rcases h with ⟨c, hc, hcs⟩ | hacc2
        · rcases List.mem_cons.mp hc with rfl | hc2
          · rw [hp] at hcs; cases hcs
          · exact ⟨c, hc2, hcs⟩
        · exact absurd hacc hacc2
      · rw [if_neg hacc]
        simp
    · unfold splitAux
      rw [if_neg hp]
      apply ih
      right
      simp

lemma splitAux_mem_ne_nil : ∀ (l : List Char) (acc : List Char) (w : List Char),
    w ∈ splitAux l acc → w ≠ [] := by
  intro l
  induction l with
  | nil =>
    intro acc w hw
    unfold splitAux at hw
    by_cases hacc : acc = []
    · rw [if_pos hacc] at hw; cases hw
    · rw [if_neg hacc] at hw
      rcases List.mem_cons.mp hw with rfl | hw2
      · simpa using hacc
      · cases hw2
  | cons a tl ih =>
    intro acc w hw
    unfold splitAux at hw
    by_cases hp : pyIsSpace a
    · rw [if_pos hp] at hw
      by_cases hacc : acc = []
      · rw [if_pos hacc] at hw
        exact ih [] w hw
      · rw [if_neg hacc] at hw
        rcases List.mem_cons.mp hw with rfl | hw2
        · simpa using hacc
        · exact ih [] w hw2
    · rw [if_neg hp] at hw
      exact ih (a :: acc) w hw

/-- C10: the "Cannot identify ticker" branch is unreachable.  On input
that is blank after stripping, the empty-order error fires; on any other
input the first whitespace-split token is nonempty, so the ticker check
passes and the ticker error is never raised. -/
theorem ticker_error_unreachable (text : List Char) :
    (stripChars text = [] → parse_ticker_stage text = Except.error "Empty order string") ∧
    (stripChars text ≠ [] → ∃ t, parse_ticker_stage text = Except.ok t ∧ t ≠ []) := by
  constructor
  · intro h
    unfold parse_ticker_stage
    rw [if_pos h]
  · intro h
    obtain ⟨c, hcmem, hcns⟩ := stripChars_ex_nonspace text h
    have hc2 : c ∈ stripChars (stripChars text) := mem_stripChars hcns _ hcmem
    have htok : pySplit (stripChars (stripChars text)) ≠ [] :=
      splitAux_ne_nil _ [] (Or.inl ⟨c, hc2, hcns⟩)
    rcases hsp : pySplit (stripChars (stripChars text)) with _ | ⟨w, ws⟩
    · exact absurd hsp htok
    · have hwmem : w ∈ pySplit (stripChars (stripChars text)) := by
        rw [hsp]; exact List.mem_cons_self w ws
      have hwne : w ≠ [] := splitAux_mem_ne_nil _ [] w hwmem
      have hhead : (pySplit (stripChars (stripChars text))).headD [] = w := by
        rw [hsp]; rfl
      refine ⟨w, ?_, hwne⟩
      unfold parse_ticker_stage
      rw [if_neg h, hhead, if_neg hwne]

/-- Witness for C10: blank input errs with the empty-order message; a
two-letter input parses a nonempty ticker. -/
theorem ticker_error_unreachable_witness :
    (parse_ticker_stage [] = Except.error "Empty order string") ∧
    (∃ t, parse_ticker_stage ['A', 'B'] = Except.ok t ∧ t ≠ []) :=
  ⟨(ticker_error_unreachable []).1 rfl,
   (ticker_error_unreachable ['A', 'B']).2 (by decide)⟩

/-! ## parser.py: quantity extraction -/

/-- Regex word character (`\w` over the ASCII inputs handled here). -/
def isWordChar (c : Char) : Bool := c.isAlphanum || c == '_'

/-- Numeric value of a digit run. -/
def digitsToNat (ds : List Char) : ℕ :=
  ds.foldl (fun a c => 10 * a + (c.toNat - '0'.toNat)) 0

/-- One attempted match of `(\d+)\s*x\b` (IGNORECASE) anchored at the
start of `l`: one or more digits, optional whitespace, `x` or `X`, then a
word boundary.  Returns the digit value and the remainder after the `x`. -/
def matchQtyAt (l : List Char) : Option (ℕ × List Char) :=
  if l.takeWhile Char.isDigit = [] then none
  else
    match (l.dropWhile Char.isDigit).dropWhile pyIsSpace with
    | 'x' :: rest =>
      match rest with
      | [] => some (digitsToNat (l.takeWhile Char.isDigit), [])
      | c :: _ =>
        if isWordChar c then none
        else some (digitsToNat (l.takeWhile Char.isDigit), rest)
    | 'X' :: rest =>
      match rest with
      | [] => some (digitsToNat (l.takeWhile Char.isDigit), [])
      | c :: _ =>
        if isWordChar c then none
        else some (digitsToNat (l.takeWhile Char.isDigit), rest)
    | _ => none

/-- `re.search` of `(\d+)\s*x\b`: leftmost match over all start
positions. -/
def findQty : List Char → Option (ℕ × List Char)
  | [] => none
  | c :: cs =>
    match matchQtyAt (c :: cs) with
    | some r => some r
    | none => findQty cs

/-- parser.py `_extract_quantity`: search for `(\d+)\s*x\b`; if the
character right after the match is a digit (ratio pattern like 1X2),
retry on the remainder for a second non-ratio occurrence. -/
def extract_quantity (l : List Char) : Option ℕ :=
  match findQty l with
  | none => none
  | some (v, rest) =>
    match rest with
    | c :: _ =>
      if Char.isDigit c then
        match findQty rest with
        | some (v2, rest2) =>
          match rest2 with
          | c2 :: _ => if Char.isDigit c2 then none else some v2
          | [] => some v2
        | none => none
      else some v
    | [] => some v

/-- C2: the spec requires `<digits>k` to be recognized as thousands
(1k = 1000) with the same ratio disambiguation as `<digits>x`, and the
repo's own tests assert `_extract_quantity("1k") == 1000`, but the code
searches only for the `(\d+)\s*x\b` pattern and returns no quantity at
all for k-suffixed tokens. -/
theorem extract_quantity_k_token_not_recognized :
    extract_quantity "1k".toList = none ∧
    extract_quantity "goog jun 100 90 ps vs 200.00 10d 1 bid 1k".toList = none ∧
    extract_quantity "1058x".toList = some 1058 := by
  refine ⟨by decide, by decide, by decide⟩

end OptionsPricer